import Mathlib

/-!
Verification of the occupancy-grid raster cache and incremental update engine
of `ros3djs` (`src/navigation/OccupancyGrid.js`), as a shallow embedding.

Modelling conventions:
* JS numbers that hold integers (cell values, dimensions, byte indices) are
  `Int`; JS floats (opacity, colors before byte conversion) are `Rat`,
  standing in for exact real arithmetic.
* The RGBA pixel buffer (`Uint8Array`) is a `List Int` of byte values;
  storing a number into a `Uint8Array` applies ECMAScript `ToUint8`
  (truncate toward zero, wrap modulo 2^8), modelled by `toUint8`.
* A JS exception (`TypeError` from `imageData.set(undefined, i)` when a data
  read is out of range or a color-table lookup misses, `RangeError` from an
  out-of-range `TypedArray.set`) is modelled by `buildStep` returning `none`;
  the loop in `goCells` stops there, keeping all mutations already made,
  which matches in-place mutation followed by an exception.
* `null` fields of the JS object are `Option.none`; the coercion of `null`
  to `0` in a `<` comparison is `Option.getD _ 0`.
-/

namespace ROS3D

/-- ECMAScript `ToUint8`: truncate toward zero, then wrap modulo 2^8.
Applied when a number is stored into a `Uint8Array`. -/
def toUint8 (q : ℚ) : ℤ :=
  (if 0 ≤ q then ⌊q⌋ else ⌈q⌉) % 256

/-- An RGBA color as produced by the transforms: a 4-element JS array
`[r, g, b, a]` of numbers. -/
structure RGBA where
  r : ℚ
  g : ℚ
  b : ℚ
  a : ℚ
deriving DecidableEq, Repr

/-- `ROS3D.OccupancyGrid.prototype.costmapPalleteTransform`: maps an
occupancy value (considered as int8) to RGBA, rviz costmap palette. -/
def costmapPalleteTransform (value : ℤ) : RGBA :=
  if value = 0 then ⟨0, 0, 0, 0⟩
  else if 1 ≤ value ∧ value ≤ 98 then ⟨(value : ℚ), 0, 255 - (value : ℚ), 255⟩
  else if value = 99 then ⟨0, 255, 255, 255⟩
  else if value = 100 then ⟨255, 0, 255, 255⟩
  else if 100 < value ∧ value ≤ 127 then ⟨0, 255, 0, 255⟩
  else if -128 ≤ value ∧ value ≤ -2 then
    ⟨255, 255 * ((value : ℚ) + 128) / 126, 0, 255⟩
  else if value = -1 then ⟨112, 137, 134, 255⟩
  else ⟨0, 0, 0, 0⟩

/-- A value-to-color transform (`this.mapColorTransform`). -/
def Transform : Type := ℤ → RGBA

/-- The color lookup table (`this.colorMap`), as the partial function a JS
`Map` denotes: `Map.get` of a missing key is `undefined` (`none`). -/
def ColorMap : Type := ℤ → Option RGBA

/-- `ROS3D.OccupancyGrid.prototype.buildColorHashMap`: the loop
`for (var i = -128; i < 127; i++)` populates keys `-128 .. 126`, storing the
transform's RGBA with its alpha multiplied by the configured opacity. -/
def buildColorHashMap (transform : Transform) (opacity : ℚ) : ColorMap :=
  fun i =>
    if -128 ≤ i ∧ i < 127 then
      let rgba := transform i
      some { rgba with a := rgba.a * opacity }
    else none

/-- The four bytes stored when an RGBA color array is written into the
`Uint8Array` pixel buffer. -/
def pixBytes (c : RGBA) : List ℤ :=
  [toUint8 c.r, toUint8 c.g, toUint8 c.b, toUint8 c.a]

/-- `imageData.set(vs, i)`: overwrite positions `i .. i+|vs|-1` of the
buffer (the caller has checked `i + |vs| ≤ |buf|`). -/
def writeBytes (buf : List ℤ) (i : ℕ) (vs : List ℤ) : List ℤ :=
  buf.take i ++ vs ++ buf.drop (i + vs.length)

/-- One iteration of the nested loop body of
`ROS3D.OccupancyGrid.prototype.buildImageData` at `(row, col)`:
`dataRow = row - y`, `mapI = col + dataRow*width` (note: the source does NOT
subtract `x`), color fetched from the table for `data[mapI]` and written at
`i = (col + row*width)*4` (note: `width` here is the patch width argument,
not the stored grid width). `none` models the JS exception thrown when
`data[mapI]` is `undefined` (index out of range), when the table lookup
misses, or when the 4-byte write would run past the buffer. -/
def buildStep (cm : ColorMap) (data : List ℤ) (width x y : ℤ)
    (row col : ℤ) (buf : List ℤ) : Option (List ℤ) :=
  let dataRow : ℤ := row - y
  let mapI : ℤ := col + dataRow * width
  if 0 ≤ mapI ∧ mapI < (data.length : ℤ) then
    match cm (data.getD mapI.toNat 0) with
    | none => none
    | some color =>
      let i : ℤ := (col + row * width) * 4
      if 0 ≤ i ∧ i.toNat + 4 ≤ buf.length then
        some (writeBytes buf i.toNat (pixBytes color))
      else none
  else none

/-- Run the loop body over the listed `(row, col)` cells in order, stopping
at the first exception; returns the buffer as mutated so far and whether the
loop completed without throwing. -/
def goCells (cm : ColorMap) (data : List ℤ) (width x y : ℤ) :
    List (ℤ × ℤ) → List ℤ → List ℤ × Bool
  | [], buf => (buf, true)
  | (row, col) :: rest, buf =>
    match buildStep cm data width x y row col buf with
    | none => (buf, false)
    | some buf2 => goCells cm data width x y rest buf2

/-- The `(row, col)` iteration sequence of the two nested loops
`for (row = y; row < height+y; row++) for (col = x; col < width+x; col++)`. -/
def cellSeq (width height x y : ℤ) : List (ℤ × ℤ) :=
  (List.range height.toNat).flatMap fun (r : ℕ) =>
    (List.range width.toNat).map fun (c : ℕ) => (y + (r : ℤ), x + (c : ℤ))

/-- `ROS3D.OccupancyGrid.prototype.buildImageData` with default arguments
`x = 0`, `y = 0`: rewrite part of `buf` from `data` through the color table;
the `Bool` is `false` when the loop threw partway. -/
def buildImageData (cm : ColorMap) (buf data : List ℤ)
    (width height : ℤ) (x : ℤ := 0) (y : ℤ := 0) : List ℤ × Bool :=
  goCells cm data width x y (cellSeq width height x y) buf

/-- The pixel bytes a buffer holds after every cell of `data` has been
pushed through the color table in index order. -/
def canonicalPixels (cm : ColorMap) (data : List ℤ) : List ℤ :=
  data.flatMap fun v => ((cm v).map pixBytes).getD []

/-- Proof-side reformulation of `buildStep` for the full-extent case
(`x = 0`, `y = 0`): the loop body at flat cell index `k`. -/
def kStep (cm : ColorMap) (data : List ℤ) (k : ℕ) (buf : List ℤ) :
    Option (List ℤ) :=
  if k < data.length then
    match cm (data.getD k 0) with
    | none => none
    | some color =>
      if 4 * k + 4 ≤ buf.length then
        some (writeBytes buf (4 * k) (pixBytes color))
      else none
  else none

/-- Proof-side reformulation of `goCells` over flat cell indices. -/
def goK (cm : ColorMap) (data : List ℤ) : List ℕ → List ℤ → List ℤ × Bool
  | [], buf => (buf, true)
  | k :: rest, buf =>
    match kStep cm data k buf with
    | none => (buf, false)
    | some buf2 => goK cm data rest buf2

/-- A ROS pose: position and orientation (`info.origin`). -/
structure Pose where
  px : ℚ
  py : ℚ
  pz : ℚ
  ox : ℚ
  oy : ℚ
  oz : ℚ
  ow : ℚ
deriving DecidableEq, Repr

/-- `message.info` of a `nav_msgs/OccupancyGrid`. -/
structure MapInfo where
  origin : Pose
  width : ℤ
  height : ℤ
  resolution : ℚ
deriving DecidableEq, Repr

/-- A full-grid message (`nav_msgs/OccupancyGrid`). -/
structure FullMsg where
  info : MapInfo
  data : List ℤ
deriving DecidableEq, Repr

/-- A partial-update message (`map_msgs/OccupancyGridUpdate`). -/
structure PatchMsg where
  x : ℤ
  y : ℤ
  width : ℤ
  height : ℤ
  data : List ℤ
deriving DecidableEq, Repr

/-- The observable state of a `ROS3D.OccupancyGrid` object: the cached map
fields set in the constructor, the mesh transform fields inherited from
`THREE.Mesh`, and counters standing for the identity of the current
geometry / texture objects (each replacement allocates a fresh object). -/
structure GridState where
  colorMap : ColorMap
  opacity : ℚ
  alphaValue : ℚ
  materialOpacity : ℚ
  materialTransparent : Bool
  mapInternalData : Option (List ℤ)
  mapImageData : Option (List ℤ)
  mapOrigin : Option Pose
  mapWidth : Option ℤ
  mapHeight : Option ℤ
  geomWidth : ℚ
  geomHeight : ℚ
  geomGen : ℕ
  posX : ℚ
  posY : ℚ
  posZ : ℚ
  scaleX : ℚ
  scaleY : ℚ
  quatX : ℚ
  quatY : ℚ
  quatZ : ℚ
  quatW : ℚ
  textureDirty : Bool
  textureGen : ℕ

/-- Which branch of `updateMap` ran. -/
inductive UpdPath where
  | inPlace
  | fullRebuild
deriving DecidableEq, Repr

/-- Outcome of `updatePartialMap`: rejected by validation, threw partway
through the pixel loop, or completed. -/
inductive PartialResult where
  | rejected
  | errored
  | ok
deriving DecidableEq, Repr

/-- `ROS3D.OccupancyGrid.prototype.isSameMapData`: `false` when
`mapInternalData` is `null` or the lengths differ, else element-wise
comparison. -/
def isSameMapData (s : GridState) (data : List ℤ) : Bool :=
  match s.mapInternalData with
  | none => false
  | some cur => decide (cur = data)

/-- `ROS3D.OccupancyGrid.prototype.isNewGridSameAsCur`: compares origin
position (x, y, z) and both dimensions; orientation is intentionally not
compared. `false` when `mapOrigin` is `null`. -/
def isNewGridSameAsCur (s : GridState) (origin : Pose)
    (width height : ℤ) : Bool :=
  match s.mapOrigin with
  | none => false
  | some o =>
    decide (o.px = origin.px ∧ o.py = origin.py ∧ o.pz = origin.pz ∧
      s.mapWidth = some width ∧ s.mapHeight = some height)

/-- `ROS3D.OccupancyGrid.prototype.updateMap`. Returns the new state, the
branch taken, and whether the update ran without throwing. The in-place
branch assigns `mapInternalData` before running `buildImageData` on the
existing buffer and only then sets the dirty flag; the rebuild branch
assigns origin, dimensions, geometry, pose, scale and `mapInternalData`
before filling a fresh buffer, and installs the new buffer and texture only
if the fill completes. -/
def updateMap (s : GridState) (m : FullMsg) : GridState × UpdPath × Bool :=
  let origin := m.info.origin
  let width := m.info.width
  let height := m.info.height
  if isNewGridSameAsCur s origin width height && !isSameMapData s m.data then
    match s.mapImageData with
    | some buf =>
      let r := buildImageData s.colorMap buf m.data
        (s.mapWidth.getD 0) (s.mapHeight.getD 0)
      if r.2 then
        ({ s with mapInternalData := some m.data,
                  mapImageData := some r.1,
                  textureDirty := true }, UpdPath.inPlace, true)
      else
        ({ s with mapInternalData := some m.data,
                  mapImageData := some r.1 }, UpdPath.inPlace, false)
    | none =>
      -- `this.mapImageData` is `null`: the code logs an error but proceeds;
      -- the first loop iteration throws on `null.set`, so nothing is
      -- written; with an empty iteration space nothing throws.
      if cellSeq (s.mapWidth.getD 0) (s.mapHeight.getD 0) 0 0 = [] then
        ({ s with mapInternalData := some m.data,
                  textureDirty := true }, UpdPath.inPlace, true)
      else
        ({ s with mapInternalData := some m.data }, UpdPath.inPlace, false)
  else
    let zeros : List ℤ := List.replicate (width * height * 4).toNat 0
    let r := buildImageData s.colorMap zeros m.data width height
    let s1 := { s with
      mapOrigin := some origin,
      mapWidth := some width,
      mapHeight := some height,
      geomWidth := (width : ℚ),
      geomHeight := (height : ℚ),
      geomGen := s.geomGen + 1,
      quatX := origin.ox, quatY := origin.oy,
      quatZ := origin.oz, quatW := origin.ow,
      posX := ((width : ℚ) * m.info.resolution) / 2 + origin.px,
      posY := ((height : ℚ) * m.info.resolution) / 2 + origin.py,
      posZ := origin.pz,
      scaleX := m.info.resolution,
      scaleY := m.info.resolution,
      mapInternalData := some m.data }
    if r.2 then
      ({ s1 with mapImageData := some r.1,
                 textureGen := s.textureGen + 1,
                 textureDirty := true }, UpdPath.fullRebuild, true)
    else
      (s1, UpdPath.fullRebuild, false)

/-- `ROS3D.OccupancyGrid.prototype.updatePartialMap`: reject when the patch
rectangle fails the bounds check against the current dimensions (a `null`
dimension compares as `0`), or when `mapImageData` is `null`; otherwise run
`buildImageData` over the patch rectangle on the existing buffer, and only
on completion replace `mapInternalData` with the patch data and set the
dirty flag. -/
def updatePartialMap (s : GridState) (m : PatchMsg) :
    GridState × PartialResult :=
  if decide (m.x < 0) || decide (m.y < 0) ||
      decide (s.mapWidth.getD 0 < m.x + m.width) ||
      decide (s.mapHeight.getD 0 < m.y + m.height) then
    (s, PartialResult.rejected)
  else if s.mapImageData.isNone then
    (s, PartialResult.rejected)
  else
    let buf := s.mapImageData.getD []
    let r := buildImageData s.colorMap buf m.data m.width m.height m.x m.y
    if r.2 then
      ({ s with mapImageData := some r.1,
                mapInternalData := some m.data,
                textureDirty := true }, PartialResult.ok)
    else
      ({ s with mapImageData := some r.1 }, PartialResult.errored)

/-- The effective opacity chosen by the constructor:
`options.opacity || 0.7` — `0` is falsy in JS, so it falls back to `0.7`. -/
def resolveOpacity (opacityOpt : Option ℚ) : ℚ :=
  match opacityOpt with
  | none => 7 / 10
  | some v => if v = 0 then 7 / 10 else v

/-- The state the `ROS3D.OccupancyGrid` constructor builds before its final
`this.updateMap(message)` call: dummy 1x1 geometry/texture, `null` map
fields, the color table built from the resolved opacity, `THREE.Mesh`
default transform. -/
def mkGridState (opacityOpt : Option ℚ) (transform : Transform) :
    GridState :=
  let opacity := resolveOpacity opacityOpt
  { colorMap := buildColorHashMap transform opacity
    opacity := opacity
    alphaValue := 255 * opacity
    materialOpacity := opacity
    materialTransparent := decide (opacity < 1)
    mapInternalData := none
    mapImageData := none
    mapOrigin := none
    mapWidth := none
    mapHeight := none
    geomWidth := 1
    geomHeight := 1
    geomGen := 0
    posX := 0, posY := 0, posZ := 0
    scaleX := 1, scaleY := 1
    quatX := 0, quatY := 0, quatZ := 0, quatW := 1
    textureDirty := false
    textureGen := 0 }

/-- The full `ROS3D.OccupancyGrid` constructor: build the initial state and
apply the first full update from `options.message`. -/
def mkOccupancyGrid (opacityOpt : Option ℚ) (transform : Transform)
    (msg : FullMsg) : GridState × UpdPath × Bool :=
  updateMap (mkGridState opacityOpt transform) msg

/-- The documented buffer invariant: whenever both the raw cell buffer and
the pixel buffer are non-null, the pixel buffer is four bytes per cell. -/
def bufferInvariant (s : GridState) : Prop :=
  ∀ p q, s.mapInternalData = some p → s.mapImageData = some q →
    q.length = 4 * p.length

/-- The spec's costmap palette table, stated from the spec's words, for
comparison with the source's `costmapPalleteTransform`. -/
def costmapSpecColor (v : ℤ) : RGBA :=
  if v = 0 then ⟨0, 0, 0, 0⟩
  else if 1 ≤ v ∧ v ≤ 98 then ⟨(v : ℚ), 0, 255 - (v : ℚ), 255⟩
  else if v = 99 then ⟨0, 255, 255, 255⟩
  else if v = 100 then ⟨255, 0, 255, 255⟩
  else if 100 < v ∧ v ≤ 127 then ⟨0, 255, 0, 255⟩
  else if -128 ≤ v ∧ v ≤ -2 then ⟨255, 255 * ((v : ℚ) + 128) / 126, 0, 255⟩
  else if v = -1 then ⟨112, 137, 134, 255⟩
  else ⟨0, 0, 0, 0⟩

/-! ### Concrete scenarios referenced by the analysis -/

def origin0 : Pose := ⟨0, 0, 0, 0, 0, 0, 1⟩

/-- 4x4 all-zero grid message (the spec's worked example). -/
def msg4x4 : FullMsg := ⟨⟨origin0, 4, 4, 1⟩, List.replicate 16 0⟩

def grid4 : GridState :=
  (mkOccupancyGrid (some 1) costmapPalleteTransform msg4x4).1

/-- The spec example's patch: rectangle (1,1,2,2), all cells lethal (100). -/
def patchC1 : PatchMsg := ⟨1, 1, 2, 2, [100, 100, 100, 100]⟩

def msg2x2 : FullMsg := ⟨⟨origin0, 2, 2, 1⟩, [0, 0, 0, 0]⟩

def grid2 : GridState :=
  (mkOccupancyGrid (some 1) costmapPalleteTransform msg2x2).1

def patch1 : PatchMsg := ⟨0, 0, 1, 1, [100]⟩

def msg1zero : FullMsg := ⟨⟨origin0, 1, 1, 1⟩, [0]⟩

def msg1fifty : FullMsg := ⟨⟨origin0, 1, 1, 1⟩, [50]⟩

def msg1bad : FullMsg := ⟨⟨origin0, 1, 1, 1⟩, [127]⟩

def msg1unknown : FullMsg := ⟨⟨origin0, 1, 1, 1⟩, [-1]⟩

def grid1 : GridState :=
  (mkOccupancyGrid (some 1) costmapPalleteTransform msg1zero).1

def grid50 : GridState :=
  (mkOccupancyGrid (some 1) costmapPalleteTransform msg1fifty).1

/-- `grid50` after the renderer has consumed the texture once (the renderer
clears `needsUpdate` when it uploads the texture). -/
def grid50Rendered : GridState := { grid50 with textureDirty := false }

def grid9 : GridState :=
  (mkOccupancyGrid (some (7 / 10)) costmapPalleteTransform msg1unknown).1

/-- What the code actually leaves in the 4x4 grid's pixel buffer after the
example patch: the lethal color lands at cells 3, 4 and 5 (byte offsets 12,
16, 20) and the loop then throws on an out-of-range read. -/
def c1Actual : List ℤ :=
  [0, 0, 0, 0, 0, 0, 0, 0, 0, 0, 0, 0,
   255, 0, 255, 255, 255, 0, 255, 255, 255, 0, 255, 255,
   0, 0, 0, 0, 0, 0, 0, 0, 0, 0, 0, 0, 0, 0, 0, 0,
   0, 0, 0, 0, 0, 0, 0, 0, 0, 0, 0, 0, 0, 0, 0, 0,
   0, 0, 0, 0, 0, 0, 0, 0]

/-- What the claim says the buffer should hold: the lethal color at the four
interior cells 5, 6, 9, 10 (byte offsets 20, 24, 36, 40). -/
def c1Claimed : List ℤ :=
  [0, 0, 0, 0, 0, 0, 0, 0, 0, 0, 0, 0, 0, 0, 0, 0,
   0, 0, 0, 0,
   255, 0, 255, 255, 255, 0, 255, 255,
   0, 0, 0, 0, 0, 0, 0, 0,
   255, 0, 255, 255, 255, 0, 255, 255,
   0, 0, 0, 0, 0, 0, 0, 0, 0, 0, 0, 0, 0, 0, 0, 0,
   0, 0, 0, 0]

/-! ### Characterization of the pixel-fill loop on the full grid extent -/

lemma writeBytes_length (buf vs : List ℤ) (i : ℕ)
    (h : i + vs.length ≤ buf.length) :
    (writeBytes buf i vs).length = buf.length := by
  simp only [writeBytes, List.length_append, List.length_take,
    List.length_drop]
  omega

lemma buildStep_eq_kStep (cm : ColorMap) (data : List ℤ) (W : ℤ)
    (hW : 0 ≤ W) (r c : ℕ) (buf : List ℤ) :
    buildStep cm data W 0 0 (r : ℤ) (c : ℤ) buf
      = kStep cm data (c + r * W.toNat) buf := by
  have hbase : (c : ℤ) + ((r : ℤ) - 0) * W = ((c + r * W.toNat : ℕ) : ℤ) := by
    push_cast [Int.toNat_of_nonneg hW]
    ring
  have hbase2 : ((c : ℤ) + (r : ℤ) * W) * 4
      = ((4 * (c + r * W.toNat) : ℕ) : ℤ) := by
    push_cast [Int.toNat_of_nonneg hW]
    ring
  simp only [buildStep, kStep, hbase, hbase2, Int.toNat_natCast,
    Int.natCast_nonneg, true_and, Nat.cast_lt]

lemma goCells_eq_goK (cm : ColorMap) (data : List ℤ) (W : ℤ) (hW : 0 ≤ W) :
    ∀ (l : List (ℕ × ℕ)) (buf : List ℤ),
    goCells cm data W 0 0 (l.map fun p => ((p.1 : ℤ), (p.2 : ℤ))) buf
      = goK cm data (l.map fun p => p.2 + p.1 * W.toNat) buf := by
  intro l
  induction l with
  | nil => intro buf; rfl
  | cons p rest ih =>
    intro buf
    obtain ⟨r, c⟩ := p
    simp only [List.map_cons, goCells, goK,
      buildStep_eq_kStep cm data W hW r c buf]
    cases kStep cm data (c + r * W.toNat) buf with
    | none => rfl
    | some buf2 => exact ih buf2

lemma cellSeq_zero (W H : ℤ) :
    cellSeq W H 0 0 = ((List.range H.toNat).flatMap fun r =>
      (List.range W.toNat).map fun c => (r, c)).map
        fun p => ((p.1 : ℤ), (p.2 : ℤ)) := by
  unfold cellSeq
  rw [List.map_flatMap]
  congr 1
  funext r
  rw [List.map_map]
  apply List.map_congr_left
  intro a _
  simp only [Function.comp_apply, zero_add]

lemma flatMap_range_flat (n m : ℕ) :
    ((List.range n).flatMap fun r => (List.range m).map fun c => c + r * m)
      = List.range (n * m) := by
  induction n with
  | zero => simp
  | succ n ih =>
    rw [List.range_succ, List.flatMap_append, ih]
    have : (n + 1) * m = n * m + m := by ring
    rw [this, List.range_add]
    simp [add_comm]

lemma getD_mem_of_lt (data : List ℤ) (k : ℕ) (h : k < data.length) :
    data.getD k 0 ∈ data := by
  rw [List.getD_eq_getElem data 0 h]
  exact List.getElem_mem h

lemma goK_range' (cm : ColorMap) (data : List ℤ)
    (hdom : ∀ v ∈ data, (cm v).isSome) :
    ∀ (n k0 : ℕ) (buf : List ℤ), k0 + n = data.length →
      buf.length = 4 * data.length →
      goK cm data (List.range' k0 n) buf
        = (buf.take (4 * k0) ++ canonicalPixels cm (data.drop k0), true) := by
  intro n
  induction n with
  | zero =>
    intro k0 buf hk hb
    have hk0 : k0 = data.length := by omega
    subst hk0
    simp [goK, canonicalPixels, List.drop_length,
      List.take_of_length_le (by omega : buf.length ≤ 4 * data.length)]
  | succ n ih =>
    intro k0 buf hk hb
    have hklt : k0 < data.length := by omega
    have hsome : (cm (data.getD k0 0)).isSome :=
      hdom _ (getD_mem_of_lt data k0 hklt)
    obtain ⟨color, hcolor⟩ := Option.isSome_iff_exists.mp hsome
    have hple : 4 * k0 + 4 ≤ buf.length := by omega
    have hpix : (pixBytes color).length = 4 := by simp [pixBytes]
    rw [List.range'_succ]
    simp only [goK, kStep, if_pos hklt, hcolor, if_pos hple]
    have hwlen : (writeBytes buf (4 * k0) (pixBytes color)).length
        = buf.length := by
      apply writeBytes_length
      omega
    rw [ih (k0 + 1) _ (by omega) (by omega)]
    have htklen : (buf.take (4 * k0)).length = 4 * k0 := by
      simp only [List.length_take]
      omega
    have htake : (writeBytes buf (4 * k0) (pixBytes color)).take (4 * (k0 + 1))
        = buf.take (4 * k0) ++ pixBytes color := by
      unfold writeBytes
      rw [List.append_assoc]
      have h41 : 4 * (k0 + 1) = (buf.take (4 * k0)).length + 4 := by omega
      rw [h41, List.take_append]
      congr 1
    have hdropc : canonicalPixels cm (data.drop k0)
        = pixBytes color ++ canonicalPixels cm (data.drop (k0 + 1)) := by
      rw [List.drop_eq_getElem_cons hklt]
      simp only [canonicalPixels, List.flatMap_cons]
      rw [← List.getD_eq_getElem data 0 hklt, hcolor]
      rfl
    rw [htake, hdropc, List.append_assoc]

lemma buildImageData_full (cm : ColorMap) (buf data : List ℤ) (W H : ℤ)
    (hW : 0 ≤ W) (hH : 0 ≤ H)
    (hd : data.length = W.toNat * H.toNat)
    (hb : buf.length = 4 * data.length)
    (hdom : ∀ v ∈ data, (cm v).isSome) :
    buildImageData cm buf data W H 0 0 = (canonicalPixels cm data, true) := by
  unfold buildImageData
  rw [cellSeq_zero, goCells_eq_goK cm data W hW]
  have hmap : (((List.range H.toNat).flatMap fun r =>
      (List.range W.toNat).map fun c => (r, c)).map
        fun p => p.2 + p.1 * W.toNat)
      = List.range (H.toNat * W.toNat) := by
    rw [List.map_flatMap]
    simp only [List.map_map, Function.comp_def]
    exact flatMap_range_flat H.toNat W.toNat
  rw [hmap, List.range_eq_range',
    goK_range' cm data hdom (H.toNat * W.toNat) 0 buf
      (by rw [Nat.zero_add, hd]; exact Nat.mul_comm _ _) hb]
  simp [canonicalPixels]

/-! ### Length and segment facts about canonical pixel buffers -/

lemma canonicalPixels_length (cm : ColorMap) (data : List ℤ)
    (hdom : ∀ v ∈ data, (cm v).isSome) :
    (canonicalPixels cm data).length = 4 * data.length := by
  induction data with
  | nil => rfl
  | cons v rest ih =>
    have hv : (cm v).isSome := hdom v (List.mem_cons_self v rest)
    obtain ⟨color, hcolor⟩ := Option.isSome_iff_exists.mp hv
    have hrest : ∀ w ∈ rest, (cm w).isSome := fun w hw =>
      hdom w (List.mem_cons_of_mem v hw)
    simp only [canonicalPixels, List.flatMap_cons, List.length_append] at *
    rw [hcolor, ih hrest]
    simp [pixBytes]
    ring

lemma canonicalPixels_segment (cm : ColorMap) (data : List ℤ)
    (hdom : ∀ v ∈ data, (cm v).isSome) :
    ∀ i, i < data.length →
      ((canonicalPixels cm data).drop (4 * i)).take 4
        = ((cm (data.getD i 0)).map pixBytes).getD [] := by
  induction data with
  | nil => intro i hi; cases hi
  | cons v rest ih =>
    intro i hi
    have hv : (cm v).isSome := hdom v (List.mem_cons_self v rest)
    obtain ⟨color, hcolor⟩ := Option.isSome_iff_exists.mp hv
    have hpix : (pixBytes color).length = 4 := by simp [pixBytes]
    have hrest : ∀ w ∈ rest, (cm w).isSome := fun w hw =>
      hdom w (List.mem_cons_of_mem v hw)
    cases i with
    | zero =>
      simp only [canonicalPixels, List.flatMap_cons, Nat.mul_zero,
        List.drop_zero, List.getD_cons_zero, hcolor, Option.map_some',
        Option.getD_some]
      exact List.take_left' hpix
    | succ i =>
      have hstep : 4 * (i + 1) = (pixBytes color).length + 4 * i := by
        rw [hpix]; ring
      simp only [canonicalPixels, List.flatMap_cons, hcolor,
        Option.map_some', Option.getD_some, List.getD_cons_succ]
      rw [hstep, List.drop_append]
      exact ih hrest i (by simpa using hi)


/-! ### State facts independent of the branch taken -/

lemma buildStep_some_length (cm : ColorMap) (data : List ℤ)
    (width x y row col : ℤ) (buf buf2 : List ℤ)
    (h : buildStep cm data width x y row col buf = some buf2) :
    buf2.length = buf.length := by
  simp only [buildStep] at h
  split at h
  · cases hcm : cm (data.getD (col + (row - y) * width).toNat 0) with
    | none => rw [hcm] at h; cases h
    | some color =>
      rw [hcm] at h
      replace h : (if 0 ≤ (col + row * width) * 4 ∧
            ((col + row * width) * 4).toNat + 4 ≤ buf.length then
          some (writeBytes buf ((col + row * width) * 4).toNat
            (pixBytes color))
        else none) = some buf2 := h
      by_cases hrange : 0 ≤ (col + row * width) * 4 ∧
          ((col + row * width) * 4).toNat + 4 ≤ buf.length
      · rw [if_pos hrange] at h
        injection h with h2
        rw [← h2]
        have hp : (pixBytes color).length = 4 := by simp [pixBytes]
        apply writeBytes_length
        omega
      · rw [if_neg hrange] at h
        cases h
  · cases h

lemma goCells_fst_length (cm : ColorMap) (data : List ℤ) (width x y : ℤ) :
    ∀ (l : List (ℤ × ℤ)) (buf : List ℤ),
    (goCells cm data width x y l buf).1.length = buf.length := by
  intro l
  induction l with
  | nil => intro buf; rfl
  | cons rc rest ih =>
    intro buf
    obtain ⟨row, col⟩ := rc
    simp only [goCells]
    cases hstep : buildStep cm data width x y row col buf with
    | none => rfl
    | some buf2 =>
      rw [ih buf2, buildStep_some_length cm data width x y row col buf buf2 hstep]

lemma buildImageData_fst_length (cm : ColorMap) (buf data : List ℤ)
    (width height x y : ℤ) :
    (buildImageData cm buf data width height x y).1.length = buf.length :=
  goCells_fst_length cm data width x y (cellSeq width height x y) buf

/-- After any `updateMap`, whichever branch ran and whether or not it threw,
`mapInternalData` holds the message's cell buffer (the source assigns it
before running the pixel loop on both paths). -/
lemma updateMap_internalData (s : GridState) (m : FullMsg) :
    (updateMap s m).1.mapInternalData = some m.data := by
  simp only [updateMap]
  split
  · split
    · split <;> rfl
    · split <;> rfl
  · split <;> rfl

lemma isSameMapData_self (s : GridState) (d : List ℤ)
    (h : s.mapInternalData = some d) : isSameMapData s d = true := by
  unfold isSameMapData
  rw [h]
  simp

/-- A completed (`ok`) partial update stored the patch data as
`mapInternalData` and kept the pixel buffer's length. -/
lemma updatePartialMap_ok_spec (s : GridState) (p : PatchMsg)
    (hok : (updatePartialMap s p).2 = PartialResult.ok) :
    (updatePartialMap s p).1.mapInternalData = some p.data ∧
    ∀ buf, s.mapImageData = some buf →
      ∃ q, (updatePartialMap s p).1.mapImageData = some q ∧
        q.length = buf.length := by
  simp only [updatePartialMap] at hok ⊢
  split at hok
  · cases hok
  · split at hok
    · cases hok
    · split at hok
      · rename_i h1 h2 h3
        rw [if_neg h1, if_neg h2, if_pos h3]
        refine ⟨rfl, ?_⟩
        intro buf hbuf
        refine ⟨_, rfl, ?_⟩
        rw [buildImageData_fst_length, hbuf]
        rfl
      · cases hok

/-! ### Branch-level specifications of the update operations -/

lemma isNewGridSameAsCur_spec (s : GridState) (o : Pose) (w h : ℤ)
    (hc : isNewGridSameAsCur s o w h = true) :
    s.mapWidth = some w ∧ s.mapHeight = some h := by
  unfold isNewGridSameAsCur at hc
  cases hso : s.mapOrigin with
  | none => rw [hso] at hc; cases hc
  | some op =>
    rw [hso] at hc
    simp only [decide_eq_true_eq] at hc
    exact ⟨hc.2.2.2.1, hc.2.2.2.2⟩

/-- The in-place branch of `updateMap`, on a well-formed state and message:
the pixel buffer is rewritten in place to the canonical colors of the new
data, the raw cells are replaced, the texture is marked dirty, and every
other field — geometry, position, scale, orientation, texture identity —
is untouched. -/
lemma updateMap_inPlace_spec (s : GridState) (m : FullMsg)
    (hgeo : isNewGridSameAsCur s m.info.origin m.info.width m.info.height
      = true)
    (hdata : isSameMapData s m.data = false)
    (buf : List ℤ) (hbuf : s.mapImageData = some buf)
    (hlen : buf.length = 4 * m.data.length)
    (hW : 0 ≤ m.info.width) (hH : 0 ≤ m.info.height)
    (hd : m.data.length = m.info.width.toNat * m.info.height.toNat)
    (hdom : ∀ v ∈ m.data, (s.colorMap v).isSome) :
    updateMap s m
      = ({ s with mapInternalData := some m.data,
                  mapImageData := some (canonicalPixels s.colorMap m.data),
                  textureDirty := true }, UpdPath.inPlace, true) := by
  obtain ⟨hsw, hsh⟩ := isNewGridSameAsCur_spec s _ _ _ hgeo
  have hw0 : s.mapWidth.getD 0 = m.info.width := by rw [hsw]; rfl
  have hh0 : s.mapHeight.getD 0 = m.info.height := by rw [hsh]; rfl
  simp only [updateMap]
  rw [hgeo, hdata, hbuf, hw0, hh0]
  simp only [Bool.not_false, Bool.and_self, if_true]
  rw [buildImageData_full s.colorMap buf m.data _ _ hW hH hd hlen hdom]
  simp

/-- The full-rebuild branch of `updateMap`, on a well-formed message: a
fresh pixel buffer is allocated and filled with the canonical colors,
origin/dimensions are stored, the plane geometry and the texture are
replaced, and position/scale/orientation are recomputed from the origin
and resolution. -/
lemma updateMap_rebuild_spec (s : GridState) (m : FullMsg)
    (hcond : (isNewGridSameAsCur s m.info.origin m.info.width m.info.height
      && !isSameMapData s m.data) = false)
    (hW : 0 ≤ m.info.width) (hH : 0 ≤ m.info.height)
    (hd : m.data.length = m.info.width.toNat * m.info.height.toNat)
    (hdom : ∀ v ∈ m.data, (s.colorMap v).isSome) :
    updateMap s m = ({ s with
      mapOrigin := some m.info.origin,
      mapWidth := some m.info.width,
      mapHeight := some m.info.height,
      geomWidth := (m.info.width : ℚ),
      geomHeight := (m.info.height : ℚ),
      geomGen := s.geomGen + 1,
      quatX := m.info.origin.ox, quatY := m.info.origin.oy,
      quatZ := m.info.origin.oz, quatW := m.info.origin.ow,
      posX := ((m.info.width : ℚ) * m.info.resolution) / 2
        + m.info.origin.px,
      posY := ((m.info.height : ℚ) * m.info.resolution) / 2
        + m.info.origin.py,
      posZ := m.info.origin.pz,
      scaleX := m.info.resolution,
      scaleY := m.info.resolution,
      mapInternalData := some m.data,
      mapImageData := some (canonicalPixels s.colorMap m.data),
      textureGen := s.textureGen + 1,
      textureDirty := true }, UpdPath.fullRebuild, true) := by
  have hz : (m.info.width * m.info.height * 4).toNat = 4 * m.data.length := by
    have hcast : m.info.width * m.info.height * 4
        = ((4 * (m.info.width.toNat * m.info.height.toNat) : ℕ) : ℤ) := by
      push_cast [Int.toNat_of_nonneg hW, Int.toNat_of_nonneg hH]
      ring
    rw [hcast, Int.toNat_natCast, hd]
  simp only [updateMap]
  rw [hcond,
    show List.replicate (m.info.width * m.info.height * 4).toNat (0 : ℤ)
      = List.replicate (4 * m.data.length) 0 by rw [hz],
    buildImageData_full s.colorMap _ m.data _ _ hW hH hd
      (by simp) hdom]
  simp

/-- `updateMap` on a well-formed message always succeeds and leaves the
canonical pixel buffer and the message's raw cells, whichever branch ran. -/
lemma updateMap_pixels (s : GridState) (m : FullMsg)
    (hW : 0 ≤ m.info.width) (hH : 0 ≤ m.info.height)
    (hd : m.data.length = m.info.width.toNat * m.info.height.toNat)
    (hdom : ∀ v ∈ m.data, (s.colorMap v).isSome)
    (hbufc : isNewGridSameAsCur s m.info.origin m.info.width m.info.height
        = true →
      ∃ buf, s.mapImageData = some buf ∧ buf.length = 4 * m.data.length) :
    (updateMap s m).1.mapImageData
        = some (canonicalPixels s.colorMap m.data) ∧
    (updateMap s m).1.mapInternalData = some m.data ∧
    (updateMap s m).2.2 = true := by
  cases hcond : (isNewGridSameAsCur s m.info.origin m.info.width
      m.info.height && !isSameMapData s m.data) with
  | false =>
    rw [updateMap_rebuild_spec s m hcond hW hH hd hdom]
    exact ⟨rfl, rfl, rfl⟩
  | true =>
    have hgeo : isNewGridSameAsCur s m.info.origin m.info.width
        m.info.height = true := by
      cases h : isNewGridSameAsCur s m.info.origin m.info.width
          m.info.height with
      | true => rfl
      | false => rw [h] at hcond; cases hcond
    have hdata : isSameMapData s m.data = false := by
      cases h : isSameMapData s m.data with
      | false => rfl
      | true => rw [hgeo, h] at hcond; cases hcond
    obtain ⟨buf, hbuf, hlen⟩ := hbufc hgeo
    rw [updateMap_inPlace_spec s m hgeo hdata buf hbuf hlen hW hH hd hdom]
    exact ⟨rfl, rfl, rfl⟩

/-- A partial update covering the whole grid extent is accepted, completes,
and rewrites the pixel buffer to exactly the canonical colors of its data. -/
lemma updatePartialMap_fullExtent (s : GridState) (W H : ℤ) (d : List ℤ)
    (hsw : s.mapWidth = some W) (hsh : s.mapHeight = some H)
    (buf : List ℤ) (hbuf : s.mapImageData = some buf)
    (hW : 0 ≤ W) (hH : 0 ≤ H)
    (hlen : buf.length = 4 * d.length)
    (hd : d.length = W.toNat * H.toNat)
    (hdom : ∀ v ∈ d, (s.colorMap v).isSome) :
    updatePartialMap s ⟨0, 0, W, H, d⟩
      = ({ s with mapImageData := some (canonicalPixels s.colorMap d),
                  mapInternalData := some d,
                  textureDirty := true }, PartialResult.ok) := by
  simp only [updatePartialMap]
  rw [hsw, hsh, hbuf]
  simp only [Option.getD_some, Option.isNone_some, zero_add,
    lt_self_iff_false, decide_False, Bool.or_self, Bool.or_false,
    Bool.false_eq_true, if_false]
  rw [buildImageData_full s.colorMap buf d _ _ hW hH hd hlen hdom]
  simp


/-! ### Claim theorems -/

/-- C7: the color lookup table built by `buildColorHashMap` has an entry for
every signed byte value in `[-128, 126]` and no entry for `127`; each entry
is the costmap-palette color of the value with the alpha channel multiplied
by the configured opacity — in particular value `0` maps to alpha `0` when
the opacity is `1.0`, and value `100` maps to `(255, 0, 255, 255*opacity)`. -/
theorem C7_color_table (op : ℚ) (v : ℤ) (hlo : -128 ≤ v) (hhi : v ≤ 126) :
    buildColorHashMap costmapPalleteTransform op v
      = some { costmapSpecColor v with a := (costmapSpecColor v).a * op } ∧
    buildColorHashMap costmapPalleteTransform op 127 = none ∧
    buildColorHashMap costmapPalleteTransform 1 0 = some ⟨0, 0, 0, 0⟩ ∧
    buildColorHashMap costmapPalleteTransform op 100
      = some ⟨255, 0, 255, 255 * op⟩ := by
  refine ⟨?_, ?_, by with_unfolding_all decide, ?_⟩
  · unfold buildColorHashMap
    rw [if_pos ⟨hlo, by omega⟩]
    rfl
  · exact if_neg (by decide)
  · unfold buildColorHashMap
    rw [if_pos (by decide : (-128 : ℤ) ≤ 100 ∧ (100 : ℤ) < 127)]
    rfl

/-- Witness for C7 at opacity `1`, value `100`. -/
theorem C7_color_table_witness :
    buildColorHashMap costmapPalleteTransform 1 100
      = some { costmapSpecColor 100 with a := (costmapSpecColor 100).a * 1 } ∧
    buildColorHashMap costmapPalleteTransform 1 127 = none ∧
    buildColorHashMap costmapPalleteTransform 1 0 = some ⟨0, 0, 0, 0⟩ ∧
    buildColorHashMap costmapPalleteTransform 1 100
      = some ⟨255, 0, 255, 255 * 1⟩ :=
  C7_color_table 1 100 (by decide) (by decide)

/-- C10: asking for `opacity: 0` (documented as fully transparent) falls into
the `options.opacity || 0.7` fallback, because `0` is falsy: the effective
opacity is `0.7`, the material is created with opacity `0.7`, and every
color-table alpha is scaled by `0.7`. A fully transparent grid cannot be
requested via opacity `0`. -/
theorem C10_opacity_zero_default (t : Transform) :
    (mkGridState (some 0) t).opacity = 7 / 10 ∧
    (mkGridState (some 0) t).materialOpacity = 7 / 10 ∧
    (mkGridState (some 0) t).alphaValue = 255 * (7 / 10) ∧
    ∀ v : ℤ, -128 ≤ v → v ≤ 126 →
      (mkGridState (some 0) t).colorMap v
        = some { t v with a := (t v).a * (7 / 10) } := by
  have hop : resolveOpacity (some 0) = 7 / 10 := by
    with_unfolding_all rfl
  refine ⟨by with_unfolding_all rfl, by with_unfolding_all rfl,
    by with_unfolding_all rfl, ?_⟩
  intro v h1 h2
  show buildColorHashMap t (resolveOpacity (some 0)) v = _
  rw [hop]
  unfold buildColorHashMap
  rw [if_pos ⟨h1, by omega⟩]

/-- Witness for C10 at the costmap transform, value `100`. -/
theorem C10_opacity_zero_default_witness :
    (mkGridState (some 0) costmapPalleteTransform).colorMap 100
      = some { costmapPalleteTransform 100 with
          a := (costmapPalleteTransform 100).a * (7 / 10) } :=
  (C10_opacity_zero_default costmapPalleteTransform).2.2.2 100
    (by decide) (by decide)

/-- C6: a patch whose rectangle violates the bounds check against the
current grid dimensions, and any patch arriving while the pixel buffer is
still `null`, is rejected by `updatePartialMap` with no mutation at all:
the returned state is exactly the input state. -/
theorem C6_partial_reject (s : GridState) (m : PatchMsg) (W H : ℤ)
    (h : (s.mapWidth = some W ∧ s.mapHeight = some H ∧
        (m.x < 0 ∨ m.y < 0 ∨ W < m.x + m.width ∨ H < m.y + m.height)) ∨
      s.mapImageData = none) :
    updatePartialMap s m = (s, PartialResult.rejected) := by
  simp only [updatePartialMap]
  rcases h with ⟨hw, hh, hc⟩ | himg
  · have hb : (decide (m.x < 0) || decide (m.y < 0) ||
        decide (s.mapWidth.getD 0 < m.x + m.width) ||
        decide (s.mapHeight.getD 0 < m.y + m.height)) = true := by
      rw [hw, hh]
      simp only [Option.getD_some]
      rcases hc with h | h | h | h <;> simp [h]
    rw [if_pos hb]
  · cases hb : (decide (m.x < 0) || decide (m.y < 0) ||
        decide (s.mapWidth.getD 0 < m.x + m.width) ||
        decide (s.mapHeight.getD 0 < m.y + m.height)) with
    | true => rfl
    | false => simp [himg]

/-- Witness for C6: a patch sticking out to the right of the 2x2 grid. -/
theorem C6_partial_reject_witness :
    updatePartialMap grid2 ⟨3, 0, 2, 2, [0, 0, 0, 0]⟩
      = (grid2, PartialResult.rejected) :=
  C6_partial_reject grid2 ⟨3, 0, 2, 2, [0, 0, 0, 0]⟩ 2 2
    (Or.inl ⟨by with_unfolding_all decide, by with_unfolding_all decide,
      Or.inr (Or.inr (Or.inl (by decide)))⟩)


/-- C4 counterexample: starting from a state with the same origin position
and dimensions but different cell data, the first of two consecutive
applications of the same full message takes the in-place path — geometry
and texture are not replaced both times. (The second application does take
the full-rebuild path.) -/
theorem C4_counterexample :
    (updateMap grid1 msg1fifty).2.1 = UpdPath.inPlace ∧
    (updateMap (updateMap grid1 msg1fifty).1 msg1fifty).2.1
      = UpdPath.fullRebuild := by
  with_unfolding_all decide

/-- C4 (amended): the second of two consecutive applications of the same
full message always takes the full-rebuild branch — after the first
application the stored cell data equals the message's, and a
same-dims/same-data update is treated identically to a dimension change.
The first application, however, takes the in-place branch when the prior
state has the same origin position and dimensions but different data. -/
theorem C4_second_update_rebuilds (s : GridState) (m : FullMsg) :
    (updateMap (updateMap s m).1 m).2.1 = UpdPath.fullRebuild := by
  have hint : isSameMapData (updateMap s m).1 m.data = true :=
    isSameMapData_self _ _ (updateMap_internalData s m)
  set s1 := (updateMap s m).1 with hs1
  simp only [updateMap]
  rw [hint]
  simp only [Bool.not_true, Bool.and_false, Bool.false_eq_true, if_false]
  split <;> rfl

/-- C3 counterexample: after an accepted and completed 1x1 patch on the 2x2
grid, the next full update with the same origin and dimensions sees its
cell-data comparison fail (length mismatch) — and precisely because of
that it takes the IN-PLACE path, not the full-rebuild path the claim
asserts. -/
theorem C3_counterexample :
    (updatePartialMap grid2 patch1).2 = PartialResult.ok ∧
    (updatePartialMap grid2 patch1).1.mapInternalData = some [100] ∧
    isSameMapData (updatePartialMap grid2 patch1).1 msg2x2.data = false ∧
    (updateMap (updatePartialMap grid2 patch1).1 msg2x2).2.1
      = UpdPath.inPlace := by
  with_unfolding_all decide

/-- C3 (amended): after an accepted-and-completed partial update whose
patch buffer length differs from the next full message's cell count, that
full update's `isSameMapData` comparison returns `false` because of the
length mismatch; if the full update's origin position and dimensions match
the current snapshot, this routes it into the in-place path — the
full-rebuild path is taken only when the geometry check fails too. -/
theorem C3_next_full_update_inPlace (s : GridState) (p : PatchMsg)
    (m : FullMsg)
    (hok : (updatePartialMap s p).2 = PartialResult.ok)
    (hlen : m.data.length ≠ p.data.length)
    (hgeo : isNewGridSameAsCur (updatePartialMap s p).1 m.info.origin
      m.info.width m.info.height = true) :
    isSameMapData (updatePartialMap s p).1 m.data = false ∧
    (updateMap (updatePartialMap s p).1 m).2.1 = UpdPath.inPlace := by
  have hint := (updatePartialMap_ok_spec s p hok).1
  have hsame : isSameMapData (updatePartialMap s p).1 m.data = false := by
    unfold isSameMapData
    rw [hint]
    simp only [decide_eq_false_iff_not]
    intro h
    exact hlen (by rw [h])
  refine ⟨hsame, ?_⟩
  set s1 := (updatePartialMap s p).1 with hs1
  simp only [updateMap]
  rw [hgeo, hsame]
  simp only [Bool.not_false, Bool.and_self, if_true]
  split
  · split <;> rfl
  · split <;> rfl

/-- Witness for C3 (amended) on the 2x2 grid, 1x1 patch, 2x2 full update. -/
theorem C3_next_full_update_inPlace_witness :
    isSameMapData (updatePartialMap grid2 patch1).1 msg2x2.data = false ∧
    (updateMap (updatePartialMap grid2 patch1).1 msg2x2).2.1
      = UpdPath.inPlace :=
  C3_next_full_update_inPlace grid2 patch1 msg2x2
    (by with_unfolding_all decide) (by decide)
    (by with_unfolding_all decide)

/-- C5 counterexample: a same-geometry full update whose differing cell
data contains 127 — a valid int8 value outside the color table's domain —
takes the in-place branch but throws on the missed table lookup before
rewriting any pixel: the buffer keeps the old colors and the texture dirty
flag is not set, contradicting "every pixel is rewritten" and "the texture
is marked dirty". -/
theorem C5_counterexample :
    isNewGridSameAsCur grid50Rendered origin0 1 1 = true ∧
    isSameMapData grid50Rendered msg1bad.data = false ∧
    (updateMap grid50Rendered msg1bad).2.1 = UpdPath.inPlace ∧
    (updateMap grid50Rendered msg1bad).2.2 = false ∧
    (updateMap grid50Rendered msg1bad).1.mapImageData
      = some [50, 0, 205, 255] ∧
    (updateMap grid50Rendered msg1bad).1.textureDirty = false := by
  with_unfolding_all decide

/-- C5 (amended): a full update with the current origin position and
dimensions and different cell data takes the in-place path, and — provided
every cell value lies in the color table's domain — overwrites the raw
cells, rewrites the whole pixel buffer in place through the table (same
length, no reallocation), marks the texture dirty, and leaves geometry,
position, scale, orientation and the texture object untouched. -/
theorem C5_in_place_update (s : GridState) (m : FullMsg)
    (hgeo : isNewGridSameAsCur s m.info.origin m.info.width m.info.height
      = true)
    (hdata : isSameMapData s m.data = false)
    (buf : List ℤ) (hbuf : s.mapImageData = some buf)
    (hlen : buf.length = 4 * m.data.length)
    (hW : 0 ≤ m.info.width) (hH : 0 ≤ m.info.height)
    (hd : m.data.length = m.info.width.toNat * m.info.height.toNat)
    (hdom : ∀ v ∈ m.data, (s.colorMap v).isSome) :
    updateMap s m
      = ({ s with mapInternalData := some m.data,
                  mapImageData := some (canonicalPixels s.colorMap m.data),
                  textureDirty := true }, UpdPath.inPlace, true) ∧
    (updateMap s m).1.geomGen = s.geomGen ∧
    (updateMap s m).1.textureGen = s.textureGen ∧
    (updateMap s m).1.posX = s.posX ∧
    (updateMap s m).1.posY = s.posY ∧
    (updateMap s m).1.posZ = s.posZ ∧
    (updateMap s m).1.scaleX = s.scaleX ∧
    (updateMap s m).1.scaleY = s.scaleY ∧
    (updateMap s m).1.quatX = s.quatX ∧
    (updateMap s m).1.quatY = s.quatY ∧
    (updateMap s m).1.quatZ = s.quatZ ∧
    (updateMap s m).1.quatW = s.quatW ∧
    (canonicalPixels s.colorMap m.data).length = buf.length := by
  have h := updateMap_inPlace_spec s m hgeo hdata buf hbuf hlen hW hH hd hdom
  refine ⟨h, by rw [h], by rw [h], by rw [h], by rw [h], by rw [h],
    by rw [h], by rw [h], by rw [h], by rw [h], by rw [h], by rw [h], ?_⟩
  rw [canonicalPixels_length s.colorMap m.data hdom, hlen]

/-- Witness for C5 (amended): the 1x1 zero grid receiving data `[50]`. -/
theorem C5_in_place_update_witness :
    updateMap grid1 msg1fifty
      = ({ grid1 with
            mapInternalData := some msg1fifty.data
            mapImageData :=
              some (canonicalPixels grid1.colorMap msg1fifty.data)
            textureDirty := true }, UpdPath.inPlace, true) :=
  (C5_in_place_update grid1 msg1fifty (by with_unfolding_all decide)
    (by with_unfolding_all decide) [0, 0, 0, 0]
    (by with_unfolding_all decide) (by decide) (by decide) (by decide)
    (by decide) (by with_unfolding_all decide)).1


/-- C9 counterexample: with opacity 0.7, the table entry for value -1 has
alpha `255 * 0.7 = 178.5`, but the `Uint8Array` pixel buffer stores the
byte-truncated `178` — the 4-byte group does not equal the color-table
entry. -/
theorem C9_counterexample :
    grid9.mapImageData = some [112, 137, 134, 178] ∧
    grid9.mapInternalData = some [-1] ∧
    grid9.colorMap (-1) = some ⟨112, 137, 134, 357 / 2⟩ ∧
    (178 : ℚ) ≠ 357 / 2 := by
  with_unfolding_all decide

/-- C9 (amended): after a full update with a well-formed message whose cell
values lie in the table's domain (either branch), the pixel buffer has
length `width*height*4`, the raw cells equal the message data, and every
4-byte group is the byte conversion (ECMAScript `ToUint8`, truncation) of
the color-table entry for the corresponding cell — whose alpha is the
palette alpha scaled by the configured opacity. Equality with the table
entry itself holds exactly when the entry's channels are whole bytes. -/
theorem C9_full_update_pixel_groups (s : GridState) (m : FullMsg)
    (hW : 0 ≤ m.info.width) (hH : 0 ≤ m.info.height)
    (hd : m.data.length = m.info.width.toNat * m.info.height.toNat)
    (hdom : ∀ v ∈ m.data, (s.colorMap v).isSome)
    (hbufc : isNewGridSameAsCur s m.info.origin m.info.width m.info.height
        = true →
      ∃ buf, s.mapImageData = some buf ∧ buf.length = 4 * m.data.length) :
    ∃ pix, (updateMap s m).1.mapImageData = some pix ∧
      pix.length = 4 * (m.info.width.toNat * m.info.height.toNat) ∧
      (updateMap s m).1.mapInternalData = some m.data ∧
      ∀ i, i < m.data.length →
        (pix.drop (4 * i)).take 4
          = ((s.colorMap (m.data.getD i 0)).map pixBytes).getD [] := by
  obtain ⟨himg, hint, _⟩ := updateMap_pixels s m hW hH hd hdom hbufc
  refine ⟨canonicalPixels s.colorMap m.data, himg, ?_, hint, ?_⟩
  · rw [canonicalPixels_length s.colorMap m.data hdom, hd]
  · exact canonicalPixels_segment s.colorMap m.data hdom

/-- Witness for C9 (amended): a fresh grid receiving the 2x2 zero map. -/
theorem C9_full_update_pixel_groups_witness :
    ∃ pix, (updateMap (mkGridState (some 1) costmapPalleteTransform)
        msg2x2).1.mapImageData = some pix ∧
      pix.length = 4 * (msg2x2.info.width.toNat * msg2x2.info.height.toNat) ∧
      (updateMap (mkGridState (some 1) costmapPalleteTransform)
        msg2x2).1.mapInternalData = some msg2x2.data ∧
      ∀ i, i < msg2x2.data.length →
        (pix.drop (4 * i)).take 4
          = (((mkGridState (some 1) costmapPalleteTransform).colorMap
              (msg2x2.data.getD i 0)).map pixBytes).getD [] :=
  C9_full_update_pixel_groups (mkGridState (some 1) costmapPalleteTransform)
    msg2x2 (by decide) (by decide) (by decide)
    (by with_unfolding_all decide)
    (fun h => absurd h (by with_unfolding_all decide))

/-- C2 counterexample: the accepted and completed 1x1 patch on the 2x2 grid
leaves `mapInternalData` with 1 cell while `mapImageData` still has 16
bytes — the invariant `pixels.length = 4 * rawCells.length` fails although
both buffers are non-null. -/
theorem C2_counterexample :
    (updatePartialMap grid2 patch1).2 = PartialResult.ok ∧
    (updatePartialMap grid2 patch1).1.mapInternalData = some [100] ∧
    (updatePartialMap grid2 patch1).1.mapImageData = some
      [255, 0, 255, 255, 0, 0, 0, 0, 0, 0, 0, 0, 0, 0, 0, 0] ∧
    ¬ bufferInvariant (updatePartialMap grid2 patch1).1 := by
  refine ⟨by with_unfolding_all decide, by with_unfolding_all decide,
    by with_unfolding_all decide, ?_⟩
  intro hinv
  have h := hinv [100]
    [255, 0, 255, 255, 0, 0, 0, 0, 0, 0, 0, 0, 0, 0, 0, 0]
    (by with_unfolding_all decide) (by with_unfolding_all decide)
  exact absurd h (by decide)

/-- C2 (amended): the invariant `pixels.length = 4 * rawCells.length` is
established by `updateMap` on both paths for well-formed messages with
in-domain cell values, and is preserved by a completed partial update
exactly when the patch's cell count matches the pixel buffer; an accepted
patch of any other size breaks it (see the counterexample). -/
theorem C2_invariant_full_updates (s : GridState) (m : FullMsg)
    (p : PatchMsg)
    (hW : 0 ≤ m.info.width) (hH : 0 ≤ m.info.height)
    (hd : m.data.length = m.info.width.toNat * m.info.height.toNat)
    (hdom : ∀ v ∈ m.data, (s.colorMap v).isSome)
    (hbufc : isNewGridSameAsCur s m.info.origin m.info.width m.info.height
        = true →
      ∃ buf, s.mapImageData = some buf ∧ buf.length = 4 * m.data.length) :
    bufferInvariant (updateMap s m).1 ∧
    (∀ buf, s.mapImageData = some buf →
      (updatePartialMap s p).2 = PartialResult.ok →
      4 * p.data.length = buf.length →
      bufferInvariant (updatePartialMap s p).1) := by
  constructor
  · obtain ⟨himg, hint, _⟩ := updateMap_pixels s m hW hH hd hdom hbufc
    intro pdat q hp hq
    rw [hint] at hp
    rw [himg] at hq
    cases hp
    cases hq
    exact canonicalPixels_length s.colorMap m.data hdom
  · intro buf hbuf hok hsz
    obtain ⟨hint, himgf⟩ := updatePartialMap_ok_spec s p hok
    obtain ⟨q, hq, hqlen⟩ := himgf buf hbuf
    intro pdat q2 hp hq2
    rw [hint] at hp
    rw [hq] at hq2
    cases hp
    cases hq2
    rw [hqlen]
    exact hsz.symm

/-- Witness for C2 (amended) on the 2x2 grid with a full-extent patch. -/
theorem C2_invariant_full_updates_witness :
    bufferInvariant (updateMap grid2 msg2x2).1 ∧
    (∀ buf, grid2.mapImageData = some buf →
      (updatePartialMap grid2 ⟨0, 0, 2, 2, [0, 0, 0, 0]⟩).2
        = PartialResult.ok →
      4 * (PatchMsg.mk 0 0 2 2 [0, 0, 0, 0]).data.length = buf.length →
      bufferInvariant
        (updatePartialMap grid2 ⟨0, 0, 2, 2, [0, 0, 0, 0]⟩).1) :=
  C2_invariant_full_updates grid2 msg2x2 ⟨0, 0, 2, 2, [0, 0, 0, 0]⟩
    (by decide) (by decide) (by decide) (by with_unfolding_all decide)
    (fun _ => ⟨[0, 0, 0, 0, 0, 0, 0, 0, 0, 0, 0, 0, 0, 0, 0, 0],
      by with_unfolding_all decide, by decide⟩)

/-- C8: on an initialized grid, the partial update covering the full extent
`(0, 0, W, H)` with in-domain data of length `W*H` is accepted, and the
resulting pixel buffer is element-for-element the same as after a full
update carrying the same cell data. -/
theorem C8_full_extent_patch_equals_full_update (s : GridState)
    (W H : ℤ) (d : List ℤ) (m : FullMsg)
    (hsw : s.mapWidth = some W) (hsh : s.mapHeight = some H)
    (buf : List ℤ) (hbuf : s.mapImageData = some buf)
    (hW : 0 ≤ W) (hH : 0 ≤ H)
    (hlen : buf.length = 4 * d.length)
    (hd : d.length = W.toNat * H.toNat)
    (hdom : ∀ v ∈ d, (s.colorMap v).isSome)
    (hmw : m.info.width = W) (hmh : m.info.height = H) (hmd : m.data = d) :
    (updatePartialMap s ⟨0, 0, W, H, d⟩).2 = PartialResult.ok ∧
    (updatePartialMap s ⟨0, 0, W, H, d⟩).1.mapImageData
      = (updateMap s m).1.mapImageData := by
  subst hmw
  subst hmh
  subst hmd
  rw [updatePartialMap_fullExtent s _ _ m.data hsw hsh buf hbuf hW hH
    hlen hd hdom]
  refine ⟨rfl, ?_⟩
  have hb : isNewGridSameAsCur s m.info.origin m.info.width m.info.height
      = true →
      ∃ b, s.mapImageData = some b ∧ b.length = 4 * m.data.length :=
    fun _ => ⟨buf, hbuf, hlen⟩
  obtain ⟨himg, _, _⟩ := updateMap_pixels s m hW hH hd hdom hb
  rw [himg]

/-- Witness for C8 on the 2x2 grid with mixed data. -/
theorem C8_full_extent_patch_equals_full_update_witness :
    (updatePartialMap grid2 ⟨0, 0, 2, 2, [0, 50, 100, -1]⟩).2
      = PartialResult.ok ∧
    (updatePartialMap grid2 ⟨0, 0, 2, 2, [0, 50, 100, -1]⟩).1.mapImageData
      = (updateMap grid2 ⟨⟨origin0, 2, 2, 1⟩, [0, 50, 100, -1]⟩
          ).1.mapImageData :=
  C8_full_extent_patch_equals_full_update grid2 2 2 [0, 50, 100, -1]
    ⟨⟨origin0, 2, 2, 1⟩, [0, 50, 100, -1]⟩
    (by with_unfolding_all decide) (by with_unfolding_all decide)
    [0, 0, 0, 0, 0, 0, 0, 0, 0, 0, 0, 0, 0, 0, 0, 0]
    (by with_unfolding_all decide) (by decide) (by decide) (by decide)
    (by decide) (by with_unfolding_all decide) (by decide) (by decide)
    (by decide)

/-- C1: evaluating the code on the spec's own example (4x4 all-zero grid,
opacity 1, patch at (1,1,2,2) with data `[100,100,100,100]`). The claim
says the four interior cells 5, 6, 9, 10 (byte offsets 20, 24, 36, 40)
become (255,0,255,255). The code instead computes the data index
`col + (row-y)*patchWidth` — without subtracting `x` — and the pixel
offset `(col + row*patchWidth)*4` — with the patch width instead of the
grid width: it paints cells 3, 4, 5 (byte offsets 12, 16, 20), then reads
`patchData[4]` out of range and throws, leaving `mapInternalData` and the
dirty flag untouched (`errored`). -/
theorem C1_code_eval :
    (updatePartialMap grid4 patchC1).2 = PartialResult.errored ∧
    (updatePartialMap grid4 patchC1).1.mapImageData = some c1Actual ∧
    (updatePartialMap grid4 patchC1).1.mapInternalData
      = some (List.replicate 16 0) ∧
    c1Actual ≠ c1Claimed := by
  with_unfolding_all decide

end ROS3D
